import Mathlib

/-
Verification development for the starfish SeqFISH example notebook
(notebooks/SeqFISH.ipynb). The notebook is a linear script of library
calls; we embed it shallowly in two ways:

1. As syntax: a small fragment of Python statements and expressions,
   with the notebook given as a concrete list of statements mirroring
   the code cells one for one. Structural claims (the pipeline stage
   order, absence of exception handling, absence of function/class
   definitions, which statements are library calls, which statements
   mutate data directly) are settled by computation over that list.

2. As semantics: the numeric effect of the residual-background-removal
   mask assignment on an image stack (a list of rationals), a small
   heap model for aliasing (filters run with in_place set to False
   allocate fresh stacks, deepcopy allocates a fresh stack, the mask
   assignment writes through one address), and the spot-count /
   gene-count / correlation-input computation of the final cells.
-/

set_option linter.unusedVariables false

namespace SeqFISH

/-- Expressions of the Python fragment used by the notebook. -/
inductive PyExpr where
  | name (s : String)
  | str (s : String)
  | num (q : ℚ)
  | boolLit (b : Bool)
  | attr (obj : PyExpr) (field : String)
  | subscript (obj : PyExpr) (index : PyExpr)
  | slice (lo hi step : Option Int)
  | call (fn : PyExpr) (args : List PyExpr) (kwargs : List (String × PyExpr))
  | binop (op : String) (l r : PyExpr)
  | tuple (elts : List PyExpr)
  | setLit (elts : List PyExpr)
  | star (e : PyExpr)

/-- Statements of the Python fragment. The compound constructors
(`tryExcept`, `funcDef`, `classDef`, `forLoop`, `whileLoop`, `ifStmt`)
are part of the fragment so that their absence from the notebook is a
meaningful, checkable property. -/
inductive PyStmt where
  | magic (s : String)
  | importAs (module asName : String)
  | importFrom (module : String) (names : List String)
  | assign (lhs : String) (rhs : PyExpr)
  | tupleAssign (lhs : List String) (rhs : PyExpr)
  | subscriptAssign (obj index value : PyExpr)
  | exprStmt (e : PyExpr)
  | tryExcept (body handler : List PyStmt)
  | funcDef (fname : String) (params : List String) (body : List PyStmt)
  | classDef (cname : String) (body : List PyStmt)
  | forLoop (v : String) (iter : PyExpr) (body : List PyStmt)
  | whileLoop (cond : PyExpr) (body : List PyStmt)
  | ifStmt (cond : PyExpr) (thn els : List PyStmt)

open PyExpr PyStmt

/-- Shorthand for a call of `starfish.display`. -/
def displayCall (args : List PyExpr) : PyStmt :=
  exprStmt (call (attr (name "starfish") "display") args [])

/-- Cell 1: magic and imports. -/
def cellImports : List PyStmt :=
  [ magic "%gui qt",
    importAs "os" "os",
    importFrom "copy" ["deepcopy"],
    importFrom "itertools" ["product"],
    importAs "numpy" "np",
    importAs "pandas" "pd",
    importAs "skimage.filters" "skimage.filters",
    importAs "skimage.morphology" "skimage.morphology",
    importFrom "skimage.transform" ["SimilarityTransform", "warp"],
    importFrom "tqdm" ["tqdm"],
    importAs "starfish" "starfish",
    importAs "starfish.data" "starfish.data",
    importFrom "starfish.spots" ["DetectSpots"],
    importFrom "starfish.types" ["Axes"] ]

/-- Cells 3 and 4: load the experiment and the primary image of one
field of view. -/
def cellLoad : List PyStmt :=
  [ assign "exp"
      (call (attr (attr (name "starfish") "data") "SeqFISH") []
        [("use_test_data", boolLit true)]),
    assign "img"
      (call (attr (subscript (name "exp") (str "fov_000")) "get_image")
        [str "primary"] []) ]

/-- Cells 8 and 10: visualize the background that the white tophat
subtracts, via a morphological opening applied over the stack. -/
def cellBackgroundViz : List PyStmt :=
  [ importFrom "skimage.morphology" ["opening", "dilation", "disk"],
    importFrom "functools" ["partial"],
    assign "opening"
      (call (name "partial") [name "opening"]
        [("selem", call (name "disk") [num 3] [])]),
    assign "background"
      (call (attr (name "img") "apply") [name "opening"]
        [("group_by", setLit [attr (name "Axes") "ROUND",
                              attr (name "Axes") "CH",
                              attr (name "Axes") "ZPLANE"]),
         ("verbose", boolLit false),
         ("in_place", boolLit false)]),
    displayCall [name "background"] ]

/-- Cell 11: white tophat background subtraction. -/
def cellWhiteTophat : List PyStmt :=
  [ assign "wth"
      (call (attr (attr (attr (name "starfish") "image") "Filter") "WhiteTophat")
        [] [("masking_radius", num 3)]),
    assign "background_corrected"
      (call (attr (name "wth") "run") [name "img"]
        [("in_place", boolLit false)]),
    displayCall [name "background_corrected"] ]

/-- Cells 13 and 14: percentile clip and rescale. -/
def cellClip : List PyStmt :=
  [ assign "clip"
      (call (attr (attr (attr (name "starfish") "image") "Filter") "Clip")
        [] [("p_max", num (999/10)),
            ("expand_dynamic_range", boolLit true),
            ("is_volume", boolLit true)]),
    assign "scaled"
      (call (attr (name "clip") "run") [name "background_corrected"]
        [("in_place", boolLit false)]),
    displayCall [name "scaled"] ]

/-- Cells 16 and 17: residual background removal by direct edit of the
underlying numpy array of a deep copy of `scaled`. -/
def cellResidual : List PyStmt :=
  [ importFrom "copy" ["deepcopy"],
    assign "clipped" (call (name "deepcopy") [name "scaled"] []),
    subscriptAssign
      (attr (attr (name "clipped") "xarray") "values")
      (binop "<" (attr (attr (name "clipped") "xarray") "values") (num (7/10)))
      (num 0),
    displayCall [name "clipped"] ]

/-- Cells 19 and 20: local search blob detection and per-round-max
decoding against the codebook. -/
def cellDetectLSBD : List PyStmt :=
  [ assign "threshold" (num (1/2)),
    assign "lsbd"
      (call (attr (attr (attr (name "starfish") "spots") "DetectSpots")
               "LocalSearchBlobDetector")
        [] [("min_sigma", tuple [num (3/2), num (3/2), num (3/2)]),
            ("max_sigma", tuple [num 8, num 8, num 8]),
            ("num_sigma", num 10),
            ("threshold", name "threshold"),
            ("search_radius", num 7)]),
    assign "intensities" (call (attr (name "lsbd") "run") [name "clipped"] []),
    assign "decoded"
      (call (attr (attr (name "exp") "codebook") "decode_per_round_max")
        [call (attr (name "intensities") "fillna") [num 0] []] []),
    displayCall [name "clipped", name "intensities"] ]

/-- Cell 22: Gaussian low pass blur before pixel decoding. -/
def cellBlur : List PyStmt :=
  [ assign "glp"
      (call (attr (attr (attr (name "starfish") "image") "Filter")
               "GaussianLowPass")
        [] [("sigma", tuple [num (3/10), num 1, num 1]),
            ("is_volume", boolLit true)]),
    assign "blurred" (call (attr (name "glp") "run") [name "clipped"] []) ]

/-- Cell 23: pixel spot decoding. -/
def cellDetectPixel : List PyStmt :=
  [ assign "psd"
      (call (attr (attr (attr (name "starfish") "spots") "DetectPixels")
               "PixelSpotDecoder")
        [] [("codebook", attr (name "exp") "codebook"),
            ("metric", str "euclidean"),
            ("distance_threshold", num (1/2)),
            ("magnitude_threshold", num (1/10)),
            ("min_area", num 7),
            ("max_area", num 50)]),
    tupleAssign ["pixel_decoded", "ccdr"]
      (call (attr (name "psd") "run") [name "blurred"] []) ]

/-- Cells 24 and 25: look at the label image in napari. -/
def cellLabelImage : List PyStmt :=
  [ importAs "matplotlib.pyplot" "plt",
    assign "label_image"
      (call (attr (attr (name "starfish") "ImageStack") "from_numpy")
        [call (attr (name "np") "reshape")
          [attr (name "ccdr") "decoded_image",
           tuple [num 1, num 1, num 29, num 280, num 280]] []] []),
    displayCall [name "label_image"] ]

/-- Cell 27: print the number of spots detected by each spot finder. -/
def cellCompareCounts : List PyStmt :=
  [ exprStmt (call (name "print")
      [str "pixel_decoder spots detected",
       call (name "int")
         [call (attr (name "np") "sum")
           [binop "!=" (subscript (name "pixel_decoded") (str "target"))
                       (str "nan")] []] []] []),
    exprStmt (call (name "print")
      [str "local search spot detector spots detected",
       call (name "int")
         [call (attr (name "np") "sum")
           [binop "!=" (subscript (name "decoded") (str "target"))
                       (str "nan")] []] []] []) ]

/-- Cell 29: per-gene counts, the set of genes detected by both spot
finders, and the Pearson correlation between their counts. -/
def cellCorrelation : List PyStmt :=
  [ importFrom "scipy.stats" ["pearsonr"],
    assign "pixel_decoded_gene_counts"
      (call (attr (name "pd") "Series")
        [star (subscript
          (call (attr (name "np") "unique")
            [subscript (name "pixel_decoded") (str "target")]
            [("return_counts", boolLit true)])
          (slice none none (some (-1))))] []),
    assign "decoded_gene_counts"
      (call (attr (name "pd") "Series")
        [star (subscript
          (call (attr (name "np") "unique")
            [subscript (name "decoded") (str "target")]
            [("return_counts", boolLit true)])
          (slice none none (some (-1))))] []),
    assign "codetected"
      (call (attr (call (attr (attr (name "pixel_decoded_gene_counts") "index")
                          "intersection")
                    [attr (name "decoded_gene_counts") "index"] [])
               "drop")
        [str "nan"] []),
    exprStmt (call (name "pearsonr")
      [subscript (name "pixel_decoded_gene_counts") (name "codetected"),
       subscript (name "decoded_gene_counts") (name "codetected")] []) ]

/-- All code statements of the notebook, in execution order. -/
def notebookStmts : List PyStmt :=
  cellImports ++ cellLoad ++ cellBackgroundViz ++ cellWhiteTophat ++
  cellClip ++ cellResidual ++ cellDetectLSBD ++ cellBlur ++
  cellDetectPixel ++ cellLabelImage ++ cellCompareCounts ++ cellCorrelation

/-- The kind of work a notebook statement does. `setup` covers the
magic line, imports and the bare numeric parameter binding; `display`
covers the `starfish.display` calls. Every other kind names the
pipeline stage the statement belongs to, read off from the statement
itself (the bound variable and the call made). -/
inductive Stage where
  | setup
  | display
  | loadExperiment
  | loadImage
  | backgroundViz
  | whiteTophat
  | clipScale
  | residualRemoval
  | detectLSBD
  | decodeRoundMax
  | gaussianBlur
  | detectPixel
  | labelImageViz
  | compareCounts
  | correlation
deriving DecidableEq, Repr

/-- Classify one notebook statement by the pipeline stage it realises. -/
def stageOf : PyStmt → Stage
  | .magic _ => .setup
  | .importAs _ _ => .setup
  | .importFrom _ _ => .setup
  | .assign "exp" _ => .loadExperiment
  | .assign "img" _ => .loadImage
  | .assign "opening" _ => .backgroundViz
  | .assign "background" _ => .backgroundViz
  | .assign "wth" _ => .whiteTophat
  | .assign "background_corrected" _ => .whiteTophat
  | .assign "clip" _ => .clipScale
  | .assign "scaled" _ => .clipScale
  | .assign "clipped" _ => .residualRemoval
  | .subscriptAssign _ _ _ => .residualRemoval
  | .assign "threshold" _ => .setup
  | .assign "lsbd" _ => .detectLSBD
  | .assign "intensities" _ => .detectLSBD
  | .assign "decoded" _ => .decodeRoundMax
  | .assign "glp" _ => .gaussianBlur
  | .assign "blurred" _ => .gaussianBlur
  | .assign "psd" _ => .detectPixel
  | .tupleAssign _ _ => .detectPixel
  | .assign "label_image" _ => .labelImageViz
  | .assign "pixel_decoded_gene_counts" _ => .correlation
  | .assign "decoded_gene_counts" _ => .correlation
  | .assign "codetected" _ => .correlation
  | .exprStmt (.call (.attr (.name "starfish") "display") _ _) => .display
  | .exprStmt (.call (.name "print") _ _) => .compareCounts
  | .exprStmt (.call (.name "pearsonr") _ _) => .correlation
  | _ => .setup

/-- True for the stage kinds that do real pipeline work, as opposed to
setup and interactive display. -/
def isWorkStage : Stage → Bool
  | .setup => false
  | .display => false
  | _ => true

/-- Collapse consecutive equal stage kinds, so that a stage realised by
several adjacent statements counts once. -/
def dedupConsecutive : List Stage → List Stage
  | [] => []
  | [a] => [a]
  | a :: b :: rest =>
      if a = b then dedupConsecutive (b :: rest)
      else a :: dedupConsecutive (b :: rest)

/-- The sequence of pipeline stages of the notebook: classify every
statement, discard setup and display, collapse adjacent repeats. -/
def pipelineStages : List Stage :=
  dedupConsecutive ((notebookStmts.map stageOf).filter isWorkStage)

/-- Stage sequence as enumerated by the specification flow sentence:
load experiment, load field-of-view image, background-subtract with
white tophat, intensity-clip/scale, residual background removal, spot
detection with two alternative detectors, decode against a codebook,
compare detection counts and correlation. -/
def specClaimedStages : List Stage :=
  [ .loadExperiment, .loadImage, .whiteTophat, .clipScale,
    .residualRemoval, .detectLSBD, .detectPixel, .decodeRoundMax,
    .compareCounts, .correlation ]

/-- A statement whose work is done by a call expression: an assignment
or tuple assignment whose right-hand side is a call, or a bare call
statement. -/
def isCallStmt : PyStmt → Bool
  | .assign _ (.call _ _ _) => true
  | .tupleAssign _ (.call _ _ _) => true
  | .exprStmt (.call _ _ _) => true
  | _ => false

/-- A statement that writes data through subscript assignment instead
of calling an operation: `obj[index] = value`. -/
def isDirectMutation : PyStmt → Bool
  | .subscriptAssign _ _ _ => true
  | _ => false

/-- Exception handling construct. -/
def isTryStmt : PyStmt → Bool
  | .tryExcept _ _ => true
  | _ => false

/-- Function definition statement. -/
def isFuncDef : PyStmt → Bool
  | .funcDef _ _ _ => true
  | _ => false

/-- Class definition statement. -/
def isClassDef : PyStmt → Bool
  | .classDef _ _ => true
  | _ => false

/-- Custom control flow: loops, conditionals, exception handlers, or
definitions of functions and classes. -/
def isControlFlow : PyStmt → Bool
  | .tryExcept _ _ => true
  | .funcDef _ _ _ => true
  | .classDef _ _ => true
  | .forLoop _ _ _ => true
  | .whileLoop _ _ => true
  | .ifStmt _ _ _ => true
  | _ => false

/-- Statements with the five non-trivial operations the spec names:
white-tophat filtering, Gaussian blur, blob detection, pixel decoding,
codebook matching. -/
def isNontrivialOp (s : PyStmt) : Bool :=
  match stageOf s with
  | .whiteTophat => true
  | .gaussianBlur => true
  | .detectLSBD => true
  | .detectPixel => true
  | .decodeRoundMax => true
  | _ => false

/-- The base name at the root of an attribute / subscript / call chain:
`rootName` of `exp.codebook.decode_per_round_max(x)` is `exp`. -/
def rootName : PyExpr → Option String
  | .name s => some s
  | .attr obj _ => rootName obj
  | .subscript obj _ => rootName obj
  | .call fn _ _ => rootName fn
  | _ => none

/-- The root name of the expression that does the work of a statement. -/
def stmtRootName : PyStmt → Option String
  | .assign _ r => rootName r
  | .tupleAssign _ r => rootName r
  | .exprStmt e => rootName e
  | _ => none

/-- The right-hand side of the first assignment to a variable. -/
def bindingOf (v : String) : Option PyExpr :=
  (notebookStmts.filterMap fun s =>
    match s with
    | .assign l r => if l = v then some r else none
    | _ => none).head?

/-- The keyword arguments of the call bound to a variable. -/
def runCallKwargs (v : String) : Option (List (String × PyExpr)) :=
  match bindingOf v with
  | some (.call _ _ kw) => some kw
  | _ => none

/-- The residual background removal statement of cell 16:
`clipped.xarray.values[clipped.xarray.values < 0.7] = 0`. -/
def residualMaskStmt : PyStmt :=
  .subscriptAssign
    (.attr (.attr (.name "clipped") "xarray") "values")
    (.binop "<" (.attr (.attr (.name "clipped") "xarray") "values")
      (.num (7/10)))
    (.num 0)

/-! Numeric semantics of the residual background removal. Pixel values
are modelled as rationals and a stack as the flat list of its values. -/

/-- Effect on one pixel of the mask assignment
`clipped.xarray.values[clipped.xarray.values < 0.7] = 0`: a value below
the threshold 0.7 becomes 0, any other value is untouched. -/
def residualStep (v : ℚ) : ℚ :=
  if v < 7/10 then 0 else v

/-- Effect of the mask assignment on a whole stack. -/
def residualRemovalSem (xs : List ℚ) : List ℚ :=
  xs.map residualStep

/-! Heap model for the frame claim. Variables hold addresses of stacks
in a heap; running a filter with `in_place=False` and `deepcopy` both
allocate fresh stacks, while the mask assignment writes through the
address it is given. -/

/-- A heap of image stacks, addressed by position. -/
def Heap : Type := List (List ℚ)

/-- Read the stack at an address. -/
def heapRead (h : Heap) (a : Nat) : List ℚ :=
  List.getD h a []

/-- Allocate a fresh stack, returning its address and the new heap. -/
def alloc (h : Heap) (v : List ℚ) : Nat × Heap :=
  (List.length h, List.append h [v])

/-- Modelled from the spec: the external library owns the filter and
detector classes (white tophat, clip, Gaussian low pass, the two spot
detectors); their code is not part of this repository. A `run` call
with `in_place` false (explicit or by default) reads the input stack
and allocates a fresh output stack, leaving the input untouched; the
transformation itself is an arbitrary parameter `f`. -/
def runNotInPlace (f : List ℚ → List ℚ) (h : Heap) (a : Nat) : Nat × Heap :=
  alloc h (f (heapRead h a))

/-- Modelled from the spec: `copy.deepcopy` is standard-library code
outside this repository; it allocates an independent copy of the stack
at `a`. -/
def deepcopyAlloc (h : Heap) (a : Nat) : Nat × Heap :=
  alloc h (heapRead h a)

/-- The mask assignment of cell 16 writes through the address of
`clipped`, replacing the stack there by its thresholded version. -/
def maskAssignHeap (h : Heap) (a : Nat) : Heap :=
  List.set h a (residualRemovalSem (heapRead h a))

/-- Final addresses of the notebook variables and the final heap. -/
structure PipelineState where
  heap : Heap
  aImg : Nat
  aBackground : Nat
  aBackgroundCorrected : Nat
  aScaled : Nat
  aClipped : Nat
  aIntensities : Nat
  aBlurred : Nat
  aPixelDecoded : Nat

/-- The data flow of the notebook over the heap model, in statement
order: load `img`; `background = img.apply(opening, in_place=False)`;
`background_corrected = wth.run(img, in_place=False)`;
`scaled = clip.run(background_corrected, in_place=False)`;
`clipped = deepcopy(scaled)`; the mask assignment on `clipped`;
`intensities = lsbd.run(clipped)`; `blurred = glp.run(clipped)`;
`pixel_decoded, ccdr = psd.run(blurred)`. The library transformations
are arbitrary parameters. -/
def runNotebookHeap (openF wthF clipF lsbdF glpF psdF : List ℚ → List ℚ)
    (img0 : List ℚ) : PipelineState :=
  let p0 := alloc [] img0
  let p1 := runNotInPlace openF p0.2 p0.1
  let p2 := runNotInPlace wthF p1.2 p0.1
  let p3 := runNotInPlace clipF p2.2 p2.1
  let p4 := deepcopyAlloc p3.2 p3.1
  let h5 := maskAssignHeap p4.2 p4.1
  let p6 := runNotInPlace lsbdF h5 p4.1
  let p7 := runNotInPlace glpF p6.2 p4.1
  let p8 := runNotInPlace psdF p7.2 p7.1
  { heap := p8.2, aImg := p0.1, aBackground := p1.1,
    aBackgroundCorrected := p2.1, aScaled := p3.1, aClipped := p4.1,
    aIntensities := p6.1, aBlurred := p7.1, aPixelDecoded := p8.1 }

/-! Semantics of the two comparison cells. A decoded table is modelled
by the list of its target labels, in row order. -/

/-- `np.sum(table['target'] != 'nan')` of cell 27: the sum of the
boolean (0/1) array comparing every target label against "nan". -/
def npSumNeNan (targets : List String) : Nat :=
  (targets.map fun t => if t != "nan" then 1 else 0).sum

/-- Insert a label into a sorted duplicate-free list, keeping it sorted
and duplicate-free. -/
def insertSorted (x : String) : List String → List String
  | [] => [x]
  | y :: ys =>
      if x = y then y :: ys
      else if x < y then x :: y :: ys
      else y :: insertSorted x ys

/-- Modelled from the spec: `np.unique` is numpy code outside this
repository; per its documented behaviour it returns the sorted list of
distinct values. -/
def npUniqueValues (l : List String) : List String :=
  l.foldr insertSorted []

/-- `pd.Series(*np.unique(targets, return_counts=True)[::-1])` of cell
29: a series mapping each distinct target label to its occurrence
count, indexed by the sorted distinct labels. -/
def geneCountSeries (targets : List String) : List (String × Nat) :=
  (npUniqueValues targets).map fun v => (v, targets.count v)

/-- Look a label up in a series: the count stored at the first entry
carrying that label, if any. -/
def seriesGet (s : List (String × Nat)) (g : String) : Option Nat :=
  (s.find? fun p => p.1 == g).map fun p => p.2

/-- Modelled from the spec: `pandas.Index.intersection` is pandas code
outside this repository; on the sorted distinct indexes produced here
it returns the labels present in both, in order. -/
def indexIntersection (a b : List String) : List String :=
  a.filter fun x => b.contains x

/-- Modelled from the spec: `pandas.Index.drop` is pandas code outside
this repository; it removes the label if present and raises otherwise
(modelled as `none`). -/
def indexDrop (a : List String) (lbl : String) : Option (List String) :=
  if a.contains lbl then some (a.filter fun x => x != lbl) else none

/-- `codetected` of cell 29: the intersection of the two gene-count
indexes with the label "nan" dropped. -/
def codetectedOf (t1 t2 : List String) : Option (List String) :=
  indexDrop (indexIntersection (npUniqueValues t1) (npUniqueValues t2)) "nan"

/-- The two count lists handed to `pearsonr` in cell 29, paired up:
for each codetected gene, its count in the pixel-decoded series and its
count in the local-search series. -/
def corrPairsOf (t1 t2 : List String) : Option (List (Nat × Nat)) :=
  (codetectedOf t1 t2).map fun genes =>
    genes.map fun g =>
      ((seriesGet (geneCountSeries t1) g).getD 0,
       (seriesGet (geneCountSeries t2) g).getD 0)

/-! Helper lemmas. -/

/-- Summing a 0/1 indicator over a list counts the elements satisfying
the predicate. -/
theorem sum_indicator_eq_length_filter (p : String → Bool) (t : List String) :
    (t.map fun s => if p s then (1 : Nat) else 0).sum = (t.filter p).length := by
  induction t with
  | nil => rfl
  | cons a l ih =>
    by_cases h : p a <;> simp [List.filter_cons, h, ih, Nat.add_comm]

/-- Membership in `insertSorted`. -/
theorem mem_insertSorted (a x : String) (l : List String) :
    a ∈ insertSorted x l ↔ a = x ∨ a ∈ l := by
  induction l with
  | nil => simp [insertSorted]
  | cons y ys ih =>
    simp only [insertSorted]
    split_ifs with h1 h2
    · subst h1
      simp only [List.mem_cons]
      tauto
    · simp only [List.mem_cons]
    · simp only [List.mem_cons, ih]
      tauto

/-- Membership in the sorted distinct values. -/
theorem mem_npUniqueValues (a : String) (l : List String) :
    a ∈ npUniqueValues l ↔ a ∈ l := by
  induction l with
  | nil => simp [npUniqueValues]
  | cons x xs ih =>
    show a ∈ insertSorted x (xs.foldr insertSorted []) ↔ _
    rw [mem_insertSorted]
    simp only [List.mem_cons]
    rw [show xs.foldr insertSorted [] = npUniqueValues xs from rfl] at *
    tauto

/-- Finding a present key in a key-count pair list built by mapping. -/
theorem find?_count_pairs (t : List String) (g : String) (us : List String)
    (hg : g ∈ us) :
    (us.map fun v => (v, t.count v)).find? (fun p => p.1 == g) =
      some (g, t.count g) := by
  induction us with
  | nil => cases hg
  | cons u us ih =>
    rcases List.mem_cons.mp hg with h | h
    · subst h
      simp [List.find?_cons]
    · by_cases hug : u = g
      · subst hug
        simp [List.find?_cons]
      · have hb : (u == g) = false := beq_eq_false_iff_ne.mpr hug
        simp [List.find?_cons, hb, ih h]

/-- Looking up a label occurring in the targets returns its count. -/
theorem seriesGet_geneCountSeries (t : List String) (g : String) (hg : g ∈ t) :
    seriesGet (geneCountSeries t) g = some (t.count g) := by
  unfold seriesGet geneCountSeries
  rw [find?_count_pairs t g _ ((mem_npUniqueValues g t).mpr hg)]
  rfl

/-- Membership in the index intersection. -/
theorem mem_indexIntersection (g : String) (a b : List String) :
    g ∈ indexIntersection a b ↔ g ∈ a ∧ g ∈ b := by
  simp [indexIntersection, List.mem_filter, List.contains, List.elem_iff]

/-! Claim theorems. -/

/-- Claim C1, counterexample. The claim states that the computation is
exactly the pipeline load experiment, load image, white tophat,
clip/scale, residual removal, two spot detectors, decode, compare, with
no other processing stage between them; but the notebook runs a
Gaussian low pass blur stage (cell 22) between the two detectors, a
stage absent from the claimed flow. -/
theorem gaussian_blur_stage_outside_claimed_flow :
    Stage.gaussianBlur ∈ pipelineStages ∧
      Stage.gaussianBlur ∉ specClaimedStages := by
  decide

/-- Claim C1, amended. The notebook computation is the linear stage
sequence: load experiment, load field-of-view image, visualization-only
background computation by morphological opening, white-tophat
background subtraction, intensity clip/scale, residual background
removal, local-search blob detection, per-round-max decoding, Gaussian
low-pass blur, pixel spot detection/decoding, construction of a label
image for viewing, spot-count comparison, and Pearson correlation. -/
theorem notebook_stage_sequence :
    pipelineStages =
      [ Stage.loadExperiment, Stage.loadImage, Stage.backgroundViz,
        Stage.whiteTophat, Stage.clipScale, Stage.residualRemoval,
        Stage.detectLSBD, Stage.decodeRoundMax, Stage.gaussianBlur,
        Stage.detectPixel, Stage.labelImageViz, Stage.compareCounts,
        Stage.correlation ] := by
  decide

/-- Claim C2. Every statement performing one of the five non-trivial
operations (white-tophat filtering, Gaussian blur, blob detection,
pixel decoding, codebook matching) is a call statement, its call is
rooted in a library object, and each of the objects `wth`, `glp`,
`lsbd`, `psd`, `exp` involved is itself bound by a call rooted at the
external library `starfish`; the decode call is rooted at `exp`, the
loaded starfish experiment. -/
theorem nontrivial_ops_are_external_library_calls :
    ((notebookStmts.filter isNontrivialOp).all isCallStmt = true)
    ∧ ((notebookStmts.filter isNontrivialOp).all
        (fun s => ["starfish", "wth", "glp", "lsbd", "psd", "exp"].contains
          ((stmtRootName s).getD "")) = true)
    ∧ (bindingOf "wth").bind rootName = some "starfish"
    ∧ (bindingOf "glp").bind rootName = some "starfish"
    ∧ (bindingOf "lsbd").bind rootName = some "starfish"
    ∧ (bindingOf "psd").bind rootName = some "starfish"
    ∧ (bindingOf "exp").bind rootName = some "starfish"
    ∧ (bindingOf "decoded").bind rootName = some "exp" := by
  refine ⟨?_, ?_, ?_, ?_, ?_, ?_, ?_, ?_⟩ <;> rfl

/-- Claim C3, counterexample. The claim states that library-owned
entities are modified only through library public operations; but the
notebook contains a statement that writes into an entity directly by
subscript assignment (the residual background removal of cell 16). -/
theorem notebook_mutates_entity_directly :
    notebookStmts.any isDirectMutation = true := by
  rfl

/-- Claim C3, amended. The notebook reads and modifies library-owned
entities through library operations everywhere except one statement:
the residual background removal, which writes zeros directly into the
underlying numpy array of `clipped` by mask subscript assignment. -/
theorem only_direct_mutation_is_residual_mask :
    notebookStmts.filter isDirectMutation = [residualMaskStmt] := by
  rfl

/-- Claim C4. The notebook contains no exception handling construct:
no statement is a try/except, so nothing notebook-side can catch,
transform, or recover from an exception raised by the libraries. -/
theorem no_exception_handling :
    notebookStmts.all (fun s => !isTryStmt s) = true := by
  rfl

/-- Claim C8, counterexample. The claim states that every pipeline
stage is a single call into the external library API; but among the
work-stage statements of the notebook not every one is a call
statement (the residual background removal is a direct subscript
assignment). -/
theorem work_stage_statement_not_a_call :
    (notebookStmts.filter fun s => isWorkStage (stageOf s)).all isCallStmt
      = false := by
  rfl

/-- Claim C8, amended. Every pipeline work-stage statement is a call
except exactly one, the residual background removal mask assignment;
and the notebook contains no custom control flow: no loop, conditional,
exception handler, function definition or class definition. -/
theorem stages_are_calls_except_residual_mask :
    (notebookStmts.filter fun s => isWorkStage (stageOf s) && !isCallStmt s)
      = [residualMaskStmt]
    ∧ notebookStmts.all (fun s => !isControlFlow s) = true := by
  exact ⟨rfl, rfl⟩

/-- Claim C9. The notebook declares no interfaces of its own: no
statement is a function definition or a class definition. -/
theorem no_function_or_class_definitions :
    notebookStmts.all (fun s => !(isFuncDef s || isClassDef s)) = true := by
  rfl

/-- Claim C5. The white tophat and clip filters are invoked with
`in_place=False`, the Gaussian low pass is invoked with no `in_place`
argument (its default), and the residual removal mutates a deep copy;
consequently, in the heap model and for arbitrary library
transformations, after the full pipeline `img` still holds the loaded
values, `background_corrected` still holds the white-tophat output,
`scaled` still holds the clip output, and only the copy `clipped`
holds thresholded values. -/
theorem filters_preserve_inputs :
    runCallKwargs "background_corrected"
      = some [("in_place", PyExpr.boolLit false)]
    ∧ runCallKwargs "scaled" = some [("in_place", PyExpr.boolLit false)]
    ∧ runCallKwargs "blurred" = some []
    ∧ bindingOf "clipped"
      = some (PyExpr.call (PyExpr.name "deepcopy") [PyExpr.name "scaled"] [])
    ∧ ∀ (openF wthF clipF lsbdF glpF psdF : List ℚ → List ℚ)
        (img0 : List ℚ),
        heapRead (runNotebookHeap openF wthF clipF lsbdF glpF psdF img0).heap
          (runNotebookHeap openF wthF clipF lsbdF glpF psdF img0).aImg = img0
        ∧ heapRead (runNotebookHeap openF wthF clipF lsbdF glpF psdF img0).heap
          (runNotebookHeap openF wthF clipF lsbdF glpF psdF img0).aBackgroundCorrected
          = wthF img0
        ∧ heapRead (runNotebookHeap openF wthF clipF lsbdF glpF psdF img0).heap
          (runNotebookHeap openF wthF clipF lsbdF glpF psdF img0).aScaled
          = clipF (wthF img0)
        ∧ heapRead (runNotebookHeap openF wthF clipF lsbdF glpF psdF img0).heap
          (runNotebookHeap openF wthF clipF lsbdF glpF psdF img0).aClipped
          = residualRemovalSem (clipF (wthF img0)) := by
  exact ⟨rfl, rfl, rfl, rfl,
    fun openF wthF clipF lsbdF glpF psdF img0 => ⟨rfl, rfl, rfl, rfl⟩⟩

/-- Witness for claim C5 at identity transformations and the concrete
stack `[1/5, 1]`: the mask turns the copy into `[0, 1]` while `img`,
`background_corrected` and `scaled` keep the value `[1/5, 1]`. -/
theorem filters_preserve_inputs_witness :
    heapRead (runNotebookHeap id id id id id id [1/5, 1]).heap
      (runNotebookHeap id id id id id id [1/5, 1]).aImg = [1/5, 1]
    ∧ heapRead (runNotebookHeap id id id id id id [1/5, 1]).heap
      (runNotebookHeap id id id id id id [1/5, 1]).aBackgroundCorrected
      = [1/5, 1]
    ∧ heapRead (runNotebookHeap id id id id id id [1/5, 1]).heap
      (runNotebookHeap id id id id id id [1/5, 1]).aScaled = [1/5, 1]
    ∧ heapRead (runNotebookHeap id id id id id id [1/5, 1]).heap
      (runNotebookHeap id id id id id id [1/5, 1]).aClipped
      = [0, 1] := by
  have h := filters_preserve_inputs.2.2.2.2 id id id id id id [1/5, 1]
  refine ⟨h.1, h.2.1, h.2.2.1, ?_⟩
  rw [h.2.2.2]
  norm_num [residualRemovalSem, residualStep]

/-- Claim C6. After the residual background removal, every stored value
is either exactly 0 or at least 0.7, no value strictly between 0 and
0.7 remains, and every value at least 0.7 equals the corresponding
value of the input stack `scaled`. -/
theorem residual_removal_threshold_invariant (scaled : List ℚ) (i : Nat)
    (v : ℚ) (h : (residualRemovalSem scaled)[i]? = some v) :
    (v = 0 ∨ 7/10 ≤ v) ∧ ¬(0 < v ∧ v < 7/10) ∧
      (7/10 ≤ v → scaled[i]? = some v) := by
  have hm : (residualRemovalSem scaled)[i]? = (scaled[i]?).map residualStep := by
    simp [residualRemovalSem, List.getElem?_map]
  rw [hm] at h
  cases hx : scaled[i]? with
  | none => rw [hx] at h; simp at h
  | some w =>
    rw [hx] at h
    simp only [Option.map_some', Option.some.injEq] at h
    subst h
    unfold residualStep
    by_cases hw : w < 7/10
    · rw [if_pos hw]
      refine ⟨Or.inl rfl, ?_, ?_⟩
      · rintro ⟨h1, _⟩
        exact absurd h1 (lt_irrefl 0)
      · intro hge
        exact absurd hge (by norm_num)
    · rw [if_neg hw]
      refine ⟨Or.inr (not_lt.mp hw), ?_, fun _ => rfl⟩
      rintro ⟨_, h2⟩
      exact hw h2

/-- Witness for claim C6 on the stack `[1/5, 1]` at index 0: the stored
value is 0, which is allowed, not strictly between 0 and 0.7, and the
vacuous third conjunct holds. -/
theorem residual_removal_threshold_invariant_witness :
    ((0 : ℚ) = 0 ∨ 7/10 ≤ (0 : ℚ)) ∧ ¬((0 : ℚ) < 0 ∧ (0 : ℚ) < 7/10) ∧
      ((7 : ℚ)/10 ≤ 0 → ([1/5, 1] : List ℚ)[0]? = some 0) :=
  residual_removal_threshold_invariant [1/5, 1] 0 0
    (by norm_num [residualRemovalSem, residualStep])

/-- Claim C7. The reported comparison of the two detectors: each spot
count of cell 27 equals the number of table rows whose target label
differs from "nan"; each gene-count series of cell 29 maps every label
occurring in a table to its occurrence count; and, provided "nan"
occurs in both tables (`Index.drop` would raise otherwise), the
codetected index is exactly the set of labels present in both tables
with "nan" removed, and the two lists handed to `pearsonr` pair, for
each codetected gene, its count in one table with its count in the
other. -/
theorem spot_count_and_correlation_inputs (t1 t2 : List String)
    (h1 : "nan" ∈ t1) (h2 : "nan" ∈ t2) :
    npSumNeNan t1 = (t1.filter fun s => s != "nan").length
    ∧ npSumNeNan t2 = (t2.filter fun s => s != "nan").length
    ∧ (∀ g, g ∈ t1 → seriesGet (geneCountSeries t1) g = some (t1.count g))
    ∧ (∀ g, g ∈ t2 → seriesGet (geneCountSeries t2) g = some (t2.count g))
    ∧ ∃ genes, codetectedOf t1 t2 = some genes
        ∧ (∀ g, g ∈ genes ↔ g ∈ t1 ∧ g ∈ t2 ∧ g ≠ "nan")
        ∧ corrPairsOf t1 t2
          = some (genes.map fun g => (t1.count g, t2.count g)) := by
  have hnanI : "nan" ∈ indexIntersection (npUniqueValues t1) (npUniqueValues t2) :=
    (mem_indexIntersection _ _ _).mpr
      ⟨(mem_npUniqueValues _ _).mpr h1, (mem_npUniqueValues _ _).mpr h2⟩
  have hcontains : (indexIntersection (npUniqueValues t1) (npUniqueValues t2)).contains "nan" = true := by
    exact List.elem_iff.mpr hnanI
  have hcod : codetectedOf t1 t2
      = some ((indexIntersection (npUniqueValues t1) (npUniqueValues t2)).filter
          fun x => x != "nan") := by
    unfold codetectedOf indexDrop
    rw [if_pos hcontains]
  have hmemgenes : ∀ g,
      g ∈ ((indexIntersection (npUniqueValues t1) (npUniqueValues t2)).filter
        fun x => x != "nan") ↔ g ∈ t1 ∧ g ∈ t2 ∧ g ≠ "nan" := by
    intro g
    rw [List.mem_filter, mem_indexIntersection, mem_npUniqueValues,
      mem_npUniqueValues, bne_iff_ne]
    tauto
  refine ⟨sum_indicator_eq_length_filter _ t1,
    sum_indicator_eq_length_filter _ t2,
    fun g hg => seriesGet_geneCountSeries t1 g hg,
    fun g hg => seriesGet_geneCountSeries t2 g hg,
    _, hcod, hmemgenes, ?_⟩
  unfold corrPairsOf
  rw [hcod]
  simp only [Option.map_some', Option.some.injEq]
  apply List.map_congr_left
  intro g hgmem
  rcases (hmemgenes g).mp hgmem with ⟨hg1, hg2, _⟩
  rw [seriesGet_geneCountSeries t1 g hg1, seriesGet_geneCountSeries t2 g hg2]
  rfl

/-- Witness for claim C7 on the tables `["A", "nan", "A"]` and
`["nan", "A"]`: both counts, the series lookups, and the codetected
gene list `["A"]` paired as `[(2, 1)]`. -/
theorem spot_count_and_correlation_inputs_witness :
    npSumNeNan ["A", "nan", "A"]
      = ((["A", "nan", "A"] : List String).filter fun s => s != "nan").length
    ∧ npSumNeNan ["nan", "A"]
      = ((["nan", "A"] : List String).filter fun s => s != "nan").length
    ∧ (∀ g, g ∈ (["A", "nan", "A"] : List String) →
        seriesGet (geneCountSeries ["A", "nan", "A"]) g
          = some ((["A", "nan", "A"] : List String).count g))
    ∧ (∀ g, g ∈ (["nan", "A"] : List String) →
        seriesGet (geneCountSeries ["nan", "A"]) g
          = some ((["nan", "A"] : List String).count g))
    ∧ ∃ genes, codetectedOf ["A", "nan", "A"] ["nan", "A"] = some genes
        ∧ (∀ g, g ∈ genes ↔ g ∈ (["A", "nan", "A"] : List String)
            ∧ g ∈ (["nan", "A"] : List String) ∧ g ≠ "nan")
        ∧ corrPairsOf ["A", "nan", "A"] ["nan", "A"]
          = some (genes.map fun g =>
              ((["A", "nan", "A"] : List String).count g,
               (["nan", "A"] : List String).count g)) :=
  spot_count_and_correlation_inputs ["A", "nan", "A"] ["nan", "A"]
    (by decide) (by decide)

end SeqFISH
